import Mathlib

/-!
# Mip Explorer — verification of the analysis engine, preference store, cache and theme helper

Shallow embedding of the Python sources of the Mip-Explorer repository
(`core.py`, `settings.py`, `MipExplorer.py`, `ui_utilities.py`) together with
proofs about the embedded operations.

Modelling conventions:
* Python `float` values are modelled as exact rationals (`ℚ`); every decimal
  literal of the source is read as the corresponding rational.  None of the
  statements below depends on a rounding artefact of IEEE arithmetic: wherever
  the IEEE value and the rational value could differ, the statement proved is
  an (in)equality that holds for both readings, and this is noted at the
  theorem.
* Python `str` values are modelled as `List Char` (settings / theme helper)
  or as Lean `String` (cache keys), both faithful character-sequence models.
* Code that can raise an exception which escapes the function is modelled
  with `Option`: `none` is an escaped exception, `some x` a normal return of
  `x`.  A Python function that falls off its end returns `None`; where a
  caller distinguishes that from data we model the result as `Option` as
  well, with `none` for Python `None`.
* Python dictionaries (including the JSON objects of the cache file) are
  modelled as insertion-ordered association lists, matching the documented
  ordering guarantee of `dict` that the cache code relies on.
-/

namespace MipExplorer

/-! ## `core.py`: texture types and delta interpretation -/

/-- The `TextureType` enumeration of `core.py` (`COLOR=0, DATA=1, CHANNELS=2,
NORMAL=3, MAX=4`). -/
inductive TextureType where
  | COLOR
  | DATA
  | CHANNELS
  | NORMAL
  | MAX
deriving DecidableEq, Repr

/-- One element of a raw delta sequence (`list[list[float]] | list[float]`):
either a Python float (`scalar`) or a Python list of floats (`vec`).  The
dynamic test `type(raw_deltas[0]) != list` of the source distinguishes the
two constructors. -/
inductive DeltaEntry where
  | scalar : ℚ → DeltaEntry
  | vec : List ℚ → DeltaEntry
deriving DecidableEq, Repr

/-- Python subscripting `delta[i]`: raises `TypeError` on a float (`none`),
raises `IndexError` past the end of a list (`none`), else yields the
element. -/
def DeltaEntry.getIdx : DeltaEntry → Nat → Option ℚ
  | .scalar _, _ => none
  | .vec v, i => v.get? i

/-- The three-index weighted sum
`delta[0]*w0 + delta[1]*w1 + delta[2]*w2` of `interpret_deltas`. -/
def weightedSum3 (d : DeltaEntry) (w0 w1 w2 : ℚ) : Option ℚ := do
  let a ← d.getIdx 0
  let b ← d.getIdx 1
  let c ← d.getIdx 2
  pure (a * w0 + b * w1 + c * w2)

/-- The four-index weighted sum
`delta[0]*w0 + ... + delta[3]*w3` of `interpret_deltas`. -/
def weightedSum4 (d : DeltaEntry) (w0 w1 w2 w3 : ℚ) : Option ℚ := do
  let a ← d.getIdx 0
  let b ← d.getIdx 1
  let c ← d.getIdx 2
  let e ← d.getIdx 3
  pure (a * w0 + b * w1 + c * w2 + e * w3)

/-- The per-element loop of `interpret_deltas`, appending `f` of every
element; a raised exception (`none`) aborts the whole loop. -/
def mapDeltas (f : DeltaEntry → Option ℚ) : List DeltaEntry → Option (List ℚ)
  | [] => some []
  | d :: rest => do
    let x ← f d
    let xs ← mapDeltas f rest
    pure (x :: xs)

/-- `core.interpret_deltas(raw_deltas, texture_type)`.

Control flow of the source, line for line:
* `CHANNELS`, or a first element that is not a list (the `or` of the source
  short-circuits, so an empty input with `CHANNELS` never subscripts):
  return the input unchanged;
* an empty input with any other type subscripts `raw_deltas[0]` and raises
  `IndexError` (`none`);
* `NORMAL`: return `delta[2]` of every element;
* otherwise the weighted sum per element, the weights chosen by
  `has_alpha_channel` (length of the *first* element is 4) and by
  `COLOR` versus the rest: `(0.165, 0.54, 0.052, 0.243)` / four times `0.25`
  with alpha, `(0.22, 0.72, 0.07)` / three times `0.333` without.
The decimal weight literals are read as exact rationals. -/
def interpret_deltas (raw_deltas : List DeltaEntry) (texture_type : TextureType) :
    Option (List DeltaEntry) :=
  if texture_type = .CHANNELS then some raw_deltas
  else
    match raw_deltas with
    | [] => none
    | e0 :: _ =>
      match e0 with
      | .scalar _ => some raw_deltas
      | .vec v0 =>
        let has_alpha_channel : Bool := v0.length == 4
        if texture_type = .NORMAL then
          (mapDeltas (fun d => DeltaEntry.getIdx d 2) raw_deltas).map (List.map .scalar)
        else
          if has_alpha_channel then
            let w : ℚ × ℚ × ℚ × ℚ :=
              if texture_type = .COLOR then (165/1000, 54/100, 52/1000, 243/1000)
              else (1/4, 1/4, 1/4, 1/4)
            (mapDeltas
              (fun d => weightedSum4 d w.1 w.2.1 w.2.2.1 w.2.2.2) raw_deltas).map
              (List.map .scalar)
          else
            let w : ℚ × ℚ × ℚ :=
              if texture_type = .COLOR then (22/100, 72/100, 7/100)
              else (333/1000, 333/1000, 333/1000)
            (mapDeltas
              (fun d => weightedSum3 d w.1 w.2.1 w.2.2) raw_deltas).map
              (List.map .scalar)

/-! ## `core.py`: `is_mip_mappable` -/

/-- Fuelled structural test deciding whether `n` is an exact power of two:
`1` is, `0` and odd numbers above `1` are not, and an even number is one
exactly when its half is.  The fuel only forces termination; `fuel = n`
always suffices. -/
def isPowerOfTwoFuel : ℕ → ℕ → Bool
  | 0, _ => false
  | _ + 1, 1 => true
  | fuel + 1, n =>
    if n % 2 == 1 || n == 0 then false else isPowerOfTwoFuel fuel (n / 2)

/-- `math.log(n, 2).is_integer()` of the source, idealised to the exact real
logarithm: for `0 < n` the real base-2 logarithm of `n` is an integer exactly
when `n` is a power of two, decided here structurally.  (The source evaluates
the test in IEEE double precision, which deviates from the exact logarithm
for some large inputs; that deviation is discussed at the claim that depends
on this function, not hidden in the model.) -/
def log2_is_integer (n : ℕ) : Bool := isPowerOfTwoFuel n n

/-- `core.is_mip_mappable(width, height)`: `False` when either dimension is
`0`, else the conjunction of the two logarithm tests and `width > 3` and
`height > 3`. -/
def is_mip_mappable (width height : ℕ) : Bool :=
  if width == 0 || height == 0 then false
  else
    log2_is_integer width && log2_is_integer height
      && decide (width > 3) && decide (height > 3)

/-- Shape predicate used by the claims about `interpret_deltas`: the entry is
a 3- or 4-element channel array. -/
def isVec34 : DeltaEntry → Bool
  | .scalar _ => false
  | .vec v => v.length == 3 || v.length == 4

/-! ## `settings.py`: automatic texture-type inference

Python strings are modelled as `List Char` (`PyStr`). -/

/-- Model of Python `str` as its character sequence. -/
abbrev PyStr := List Char

/-- Path separators recognised by `os.path.basename` on the target platform
(`'/'` and the backslash; the drive-letter colon handling of Windows paths is
omitted — no claim involves drive letters). -/
def isPathSep (c : Char) : Bool := c == '/' || c == '\\'

/-- `os.path.basename(p)`: the characters after the last path separator. -/
def basename (p : PyStr) : PyStr :=
  p.foldl (fun acc c => if isPathSep c then [] else acc ++ [c]) []

/-- Index of the last `'.'` of a separator-free name, when there is one. -/
def lastDotIndex (b : PyStr) : Option ℕ :=
  if b.contains '.' then some (b.length - 1 - b.reverse.indexOf '.') else none

/-- Root part of `os.path.splitext` applied to a separator-free base name:
the extension starts at the last `'.'`, provided some earlier character of
the name is not a `'.'` (so names consisting of leading dots keep them). -/
def splitextRoot (b : PyStr) : PyStr :=
  match lastDotIndex b with
  | none => b
  | some d => if (b.take d).any (fun c => !(c == '.')) then b.take d else b

/-- `Settings.get_automatic_texture_type(filePath)` of `settings.py`, the
class-level mutable settings passed explicitly: returns `MAX` when automatic
detection is off, otherwise tests the extension-stripped base name against
the four affix lists in the order COLOR, DATA, CHANNELS, NORMAL, each test
being `any(base_name.endswith(affix) ...) or any(base_name.startswith(affix)
...)`, and returns `MAX` when nothing matches. -/
def get_automatic_texture_type (use_automatic_texture_type : Bool)
    (color_affixes data_affixes channels_affixes normal_affixes : List PyStr)
    (filePath : PyStr) : TextureType :=
  if use_automatic_texture_type = false then .MAX
  else
    let base_name := splitextRoot (basename filePath)
    if (color_affixes.any fun a => a.isSuffixOf base_name)
        || (color_affixes.any fun a => a.isPrefixOf base_name) then .COLOR
    else if (data_affixes.any fun a => a.isSuffixOf base_name)
        || (data_affixes.any fun a => a.isPrefixOf base_name) then .DATA
    else if (channels_affixes.any fun a => a.isSuffixOf base_name)
        || (channels_affixes.any fun a => a.isPrefixOf base_name) then .CHANNELS
    else if (normal_affixes.any fun a => a.isSuffixOf base_name)
        || (normal_affixes.any fun a => a.isPrefixOf base_name) then .NORMAL
    else .MAX

/-- Category test as the specification words it: some configured affix is a
suffix or a prefix of the base name.  Used only by the refinement statement
for the inference algorithm. -/
def specCategoryMatch (base : PyStr) (affixes : List PyStr) : Bool :=
  affixes.any fun a => a.isSuffixOf base || a.isPrefixOf base

/-- Inference algorithm as the specification words it: first category in the
strict priority order COLOR, DATA, CHANNELS, NORMAL whose affix list matches
the extension-stripped base name; `MAX` when detection is disabled or nothing
matches.  Spec-side counterpart of `get_automatic_texture_type`. -/
def spec_infer_texture_type (enabled : Bool)
    (color data channels normal : List PyStr) (filePath : PyStr) : TextureType :=
  if enabled = false then .MAX
  else
    let base := splitextRoot (basename filePath)
    match [(color, TextureType.COLOR), (data, TextureType.DATA),
        (channels, TextureType.CHANNELS), (normal, TextureType.NORMAL)].find?
        (fun p => specCategoryMatch base p.1) with
    | some p => p.2
    | none => .MAX

/-! ## `MipExplorer.py`: settings-dialog affix cleaning -/

/-- Python `text.split(",")`: the comma-separated pieces, empty pieces kept,
`[""]` for the empty text. -/
def splitOnComma : PyStr → List PyStr
  | [] => [[]]
  | c :: rest =>
    match splitOnComma rest with
    | [] => [[]]
    | t :: ts => if c == ',' then [] :: t :: ts else (c :: t) :: ts

/-- `WorkModeSettingsDialog.clean_affixes_list(affixes)`: the source's
`for affix in affixes: affix.strip()` discards the value returned by
`strip()` (Python strings are immutable), so the loop has no effect; the
function only filters out tokens that are exactly the empty string. -/
def clean_affixes_list (affixes : List PyStr) : List PyStr :=
  affixes.filter (fun a => !(a == []))

/-- The affix list stored by `WorkModeSettingsDialog.accept` for one text
field: `clean_affixes_list(text.split(","))`. -/
def accepted_affixes (text : PyStr) : List PyStr :=
  clean_affixes_list (splitOnComma text)

/-! ## `ui_utilities.py`: dark-mode detection -/

/-- Python whitespace stripped by `str.strip()`. -/
def isPySpace (c : Char) : Bool :=
  c == ' ' || c == '\t' || c == '\n' || c == '\r' || c == '\x0b' || c == '\x0c'

/-- `s.strip()`: drop whitespace from both ends. -/
def pyStripWs (s : PyStr) : PyStr :=
  ((s.dropWhile isPySpace).reverse.dropWhile isPySpace).reverse

/-- The single-quote character (used by `.strip("'")`). -/
def quoteChar : Char := Char.ofNat 39

/-- `s.strip("'")`: drop single quotes from both ends. -/
def pyStripQuote (s : PyStr) : PyStr :=
  ((s.dropWhile (· == quoteChar)).reverse.dropWhile (· == quoteChar)).reverse

/-- Outcome of the `subprocess.run(getArgs, capture_output=True)` call of
`detectDarkModeGnome`: `raises` when the process cannot even be spawned
(e.g. `gsettings` not installed, raising `FileNotFoundError`), otherwise the
captured standard output, which is empty when the command exits non-zero
without printing (`subprocess.run` without `check=True` does not raise on a
non-zero exit status). -/
inductive GSettingsResult where
  | raises
  | completed (stdout : PyStr)
deriving DecidableEq, Repr

/-- The suffix `'-dark'` tested by `detectDarkModeGnome`. -/
def darkIndicator : PyStr := ['-', 'd', 'a', 'r', 'k']

/-- `ui_utilities.detectDarkModeGnome()`: strips the captured output of
whitespace and quotes and tests for the `-dark` suffix.  The function body
has no `try`/`except`, so a raising `subprocess.run` propagates (`none`). -/
def detectDarkModeGnome (r : GSettingsResult) : Option Bool :=
  match r with
  | .raises => none
  | .completed out =>
    let currentTheme := pyStripQuote (pyStripWs out)
    some (darkIndicator.isSuffixOf currentTheme)

/-- The operating-system branch taken by `is_system_dark`. -/
inductive Platform where
  | darwin
  | windows
  | other
deriving DecidableEq, Repr

/-- Environment of one `is_system_dark()` call: the platform plus the
outcome of the per-platform query.  `darwinQuery = none` / `windowsLight =
none` model an exception inside the respective `try` block (both are caught
there); `gnomeQuery` is the subprocess outcome described at
`GSettingsResult`. -/
structure OsEnv where
  platform : Platform
  darwinQuery : Option PyStr
  windowsLight : Option ℤ
  gnomeQuery : GSettingsResult

/-- `ui_utilities.is_system_dark()`: Darwin tests `bool(stdout)`
(non-emptiness) with failures caught to `False`; Windows tests the registry
value `AppsUseLightTheme == 0` with failures caught to `False`; every other
platform returns `detectDarkModeGnome()` with no exception handling of its
own. -/
def is_system_dark (e : OsEnv) : Option Bool :=
  match e.platform with
  | .darwin =>
    some (match e.darwinQuery with
      | none => false
      | some out => !out.isEmpty)
  | .windows =>
    some (match e.windowsLight with
      | none => false
      | some v => v == 0)
  | .other => detectDarkModeGnome e.gnomeQuery

/-! ## `MipExplorer.py`: result cache

The cache file is a JSON object holding an integer under `"Version"` and two
category objects; its on-disk state and the JSON dictionaries are modelled
explicitly, and every function below returns the new file state. -/

/-- The `WorkMode` enumeration of `MipExplorer.py` (same five variants and
ordinals as `TextureType`). -/
inductive WorkMode where
  | COLOR
  | DATA
  | CHANNELS
  | NORMAL
  | MAX
deriving DecidableEq, Repr

/-- The module constant `CACHESIZE = 100`. -/
def CACHESIZE : ℕ := 100

/-- The module constant `CACHEVERSION: int = 3` of `MipExplorer.py`. -/
def CACHEVERSION : ℤ := 3

/-- `MipExplorer.get_results_category(work_mode)`. -/
def get_results_category (work_mode : WorkMode) : String :=
  if work_mode = .NORMAL then "Results_Normal" else "Results"

/-- Key of the top-level cache dictionary.  Keys read from or written to the
JSON file are strings; `funcObject` is the value bound to `category` by the
source line `category: str = get_results_category` of
`try_getting_cached_results`, which names the function without calling it,
so the membership test `category in data` compares a function object against
the string keys. -/
inductive PyKey where
  | str (s : String)
  | funcObject
deriving DecidableEq, Repr

/-- A delta sequence as stored in the cache (`y_axis_values`). -/
abbrev Deltas := List (List ℚ)

/-- One cache entry: the tuple `(y_axis_values, mtime)`. -/
abbrev CacheEntry := Deltas × ℚ

/-- Value under a top-level key of the cache JSON object: the integer
`Version`, or a category object mapping file paths to entries. -/
inductive CacheVal where
  | int (v : ℤ)
  | catMap (m : List (String × CacheEntry))
deriving DecidableEq, Repr

/-- The cache JSON object, an insertion-ordered dictionary. -/
abbrev CacheJson := List (PyKey × CacheVal)

/-- State of the cache file on disk: `none` — no file; `some none` — a file
whose contents do not parse as JSON (such as the empty file the error
handler creates); `some (some d)` — a file holding the JSON object `d`. -/
abbrev CacheFile := Option (Option CacheJson)

/-- Dictionary read `d[k]` (`none` encodes `k not in d`). -/
def lookupKey : CacheJson → PyKey → Option CacheVal
  | [], _ => none
  | p :: rest, k => if p.1 == k then some p.2 else lookupKey rest k

/-- Dictionary write `d[k] = v`: replaces in place when the key is present
(Python dictionaries keep the insertion position), appends otherwise. -/
def setKey : CacheJson → PyKey → CacheVal → CacheJson
  | [], k, v => [(k, v)]
  | p :: rest, k, v => if p.1 == k then (k, v) :: rest else p :: setKey rest k v

/-- Category-object read `m[fp]`. -/
def lookupCat : List (String × CacheEntry) → String → Option CacheEntry
  | [], _ => none
  | p :: rest, fp => if p.1 == fp then some p.2 else lookupCat rest fp

/-- Category-object write `m.update({fp: e})`: replace in place or append. -/
def updateCat : List (String × CacheEntry) → String → CacheEntry →
    List (String × CacheEntry)
  | [], fp, e => [(fp, e)]
  | p :: rest, fp, e => if p.1 == fp then (fp, e) :: rest else p :: updateCat rest fp e

/-- `MipExplorer.ensure_cache_version(cachepath)` as a transformer of the
file state (the `os.makedirs` of the cache directory has no bearing on the
file).  A missing or unparseable file is left alone (`except: pass`).  For a
parsed object, `is_version_correct` stays `True` when there is no `Version`
key, is the comparison `CACHEVERSION == data["Version"]` otherwise (`False`
in Python when the stored value is not a number), and an incorrect version
leads to `os.remove(cachepath)` — the file is deleted and *not* recreated. -/
def ensure_cache_version (fileState : CacheFile) : CacheFile :=
  match fileState with
  | none => none
  | some none => some none
  | some (some data) =>
    let is_version_correct : Bool :=
      match lookupKey data (.str "Version") with
      | some (.int v) => CACHEVERSION == v
      | some (.catMap _) => false
      | none => true
    if is_version_correct then some (some data) else none

/-- `MipExplorer.try_getting_cached_results(filepath, cachepath)`.

The source line `category: str = get_results_category` binds the function
object itself — the call parentheses and the work-mode argument are missing
— so `category` is `funcObject` here.  `file_mtime` stands for
`os.path.getmtime(filepath)`.  Returning `none` models both the bare
`return` / fall-through `None` paths and the swallowed exceptions of the
`try` block (missing file, unparseable JSON, `filepath in <non-dict>`). -/
def try_getting_cached_results (allow_caching : Bool) (fileState : CacheFile)
    (file_mtime : ℚ) (filepath : String) : Option Deltas :=
  let category : PyKey := .funcObject
  if allow_caching = false then none
  else
    match fileState with
    | none => none
    | some none => none
    | some (some data) =>
      match lookupKey data category with
      | none => none
      | some (.int _) => none
      | some (.catMap m) =>
        match lookupCat m filepath with
        | none => none
        | some (vals, cached_mtime) =>
          if file_mtime ≤ cached_mtime then some vals else none

/-- `MipExplorer.save_cached_results(y_axis_values, filepath, cachepath,
work_mode)` as a transformer of the file state; `file_mtime` stands for
`os.path.getmtime(filepath)`.

Faithful control flow:
* `if not output_file_path.exists:` tests the truthiness of the *bound
  method* `Path.exists` (the call parentheses are missing); a method object
  is always truthy, so the create-parents-and-empty-file branch never runs;
* a missing file makes `open(cachepath, "r")` raise, and the outer handler
  `open(cachepath, 'a').close()` creates an empty — hence unparseable —
  file without writing the entry;
* an unparseable file yields `data = dict()` (the inner `except`);
* `data[category].update(...)` on a non-dictionary value raises
  `AttributeError`, caught by the outer handler, leaving the file unchanged;
* after inserting the entry, when the category holds more than `CACHESIZE`
  entries the source calls `data[category].popitem(False)`; `dict.popitem`
  accepts no argument (that signature belongs to `OrderedDict`), so this
  raises `TypeError`, the outer handler appends nothing to the existing
  file, and the file is left unchanged — the freshly inserted entry is the
  one that is lost;
* otherwise `Version` is set to `CACHEVERSION` and the file is rewritten. -/
def save_cached_results (y_axis_values : Deltas) (filepath : String)
    (file_mtime : ℚ) (fileState : CacheFile) (work_mode : WorkMode) : CacheFile :=
  let category := get_results_category work_mode
  match fileState with
  | none => some none
  | some parsed =>
    let data : CacheJson :=
      match parsed with
      | none => []
      | some d => d
    match lookupKey data (.str category) with
    | some (.int _) => fileState
    | some (.catMap m) =>
      let m := updateCat m filepath (y_axis_values, file_mtime)
      if m.length > CACHESIZE then fileState
      else
        some (some (setKey (setKey data (.str category) (.catMap m))
          (.str "Version") (.int CACHEVERSION)))
    | none =>
      let m : List (String × CacheEntry) := [(filepath, (y_axis_values, file_mtime))]
      if m.length > CACHESIZE then fileState
      else
        some (some (setKey (data ++ [(.str category, .catMap m)])
          (.str "Version") (.int CACHEVERSION)))

/-- Entries of one category of a cache-file state (empty when the file or
the category is absent); used to state the cache claims. -/
def category_entries (fs : CacheFile) (cat : String) : List (String × CacheEntry) :=
  match fs with
  | some (some d) =>
    match lookupKey d (.str cat) with
    | some (.catMap m) => m
    | _ => []
  | _ => []

/-- Test that every top-level key of a cache-file state is a string — true
of every state that can exist on disk, since JSON object keys are strings. -/
def jsonKeysAreStrings (fs : CacheFile) : Bool :=
  match fs with
  | some (some d) => d.all (fun p => !(p.1 == PyKey.funcObject))
  | _ => true

/-- The 101 distinct file paths `"0", "1", ..., "100"` of the eviction
scenario. -/
def evictionPaths : List String := (List.range 101).map (fun i => toString i)

/-- Cache-file state after storing one entry for each of the 101 distinct
paths into the `Results` category, starting from a valid empty cache file. -/
def evictionFinalState : CacheFile :=
  evictionPaths.foldl
    (fun st fp => save_cached_results [[1]] fp 0 st .COLOR) (some (some []))

/-- Adequacy of the fuelled power-of-two test: with enough fuel it decides
membership in the powers of two. -/
theorem isPowerOfTwoFuel_correct :
    ∀ fuel n, n ≤ fuel → (isPowerOfTwoFuel fuel n = true ↔ ∃ k, n = 2 ^ k) := by
  intro fuel
  induction fuel with
  | zero =>
    intro n hn
    have h0 : n = 0 := Nat.le_zero.mp hn
    subst h0
    simp only [isPowerOfTwoFuel]
    constructor
    · intro h; exact absurd h (by simp)
    · rintro ⟨k, hk⟩
      exact absurd hk.symm (pow_ne_zero k (by norm_num))
  | succ fuel ih =>
    intro n hn
    match n with
    | 0 =>
      simp only [isPowerOfTwoFuel]
      constructor
      · intro h
        simp at h
      · rintro ⟨k, hk⟩
        exact absurd hk.symm (pow_ne_zero k (by norm_num))
    | 1 =>
      exact ⟨fun _ => ⟨0, rfl⟩, fun _ => rfl⟩
    | (m + 2) =>
      simp only [isPowerOfTwoFuel]
      by_cases hodd : (m + 2) % 2 = 1
      · simp only [hodd, beq_self_eq_true, Bool.true_or, if_true]
        constructor
        · intro h; exact absurd h (by simp)
        · rintro ⟨k, hk⟩
          match k with
          | 0 => omega
          | k + 1 =>
            rw [pow_succ] at hk
            omega
      · have heven : (m + 2) % 2 = 0 := by omega
        have hcond : ((m + 2) % 2 == 1 || (m + 2) == 0) = false := by
          simp [heven]
        rw [hcond]
        simp only [Bool.false_eq_true, if_false]
        rw [ih ((m + 2) / 2) (by omega)]
        constructor
        · rintro ⟨k, hk⟩
          refine ⟨k + 1, ?_⟩
          rw [pow_succ, ← hk]
          omega
        · rintro ⟨k, hk⟩
          match k with
          | 0 => omega
          | k + 1 =>
            refine ⟨k, ?_⟩
            rw [pow_succ] at hk
            omega

/-- The idealised logarithm test holds exactly on the powers of two. -/
theorem log2_is_integer_iff (n : ℕ) : log2_is_integer n = true ↔ ∃ k, n = 2 ^ k :=
  isPowerOfTwoFuel_correct n n le_rfl

/-- **C4 (counterexample)**: `interpret_deltas` with `DATA` on the single raw
delta `[9, 9, 9]` does *not* return `9.0`: the weights are `0.333` each, so
the result is `9 * 0.999 = 8.991`.  This holds for the exact-rational reading
of the literals proved here and equally for IEEE doubles, where the computed
value `8.991000000000001` also differs from `9.0`. -/
theorem interpret_deltas_data_nine_ne_nine :
    interpret_deltas [.vec [9, 9, 9]] .DATA ≠ some [.scalar 9] := by
  simp [interpret_deltas, mapDeltas, weightedSum3, DeltaEntry.getIdx]
  norm_num

/-- **C4 (amended)**: `interpret_deltas` with texture type `DATA` on the
single 3-channel raw delta `[9, 9, 9]` returns the weighted sum
`9*0.333 + 9*0.333 + 9*0.333 = 8.991` (the 3-channel non-COLOR weights being
`(0.333, 0.333, 0.333)`, which sum to `0.999`, not `1`). -/
theorem interpret_deltas_data_nine_eq :
    interpret_deltas [.vec [9, 9, 9]] .DATA = some [.scalar (8991 / 1000)] := by
  simp [interpret_deltas, mapDeltas, weightedSum3, DeltaEntry.getIdx]
  norm_num

/-- **C5**: `is_mip_mappable(width, height)` is true exactly when both
dimensions are powers of two, both exceed 3 and neither is 0; and it is true
on `(4,4)`, `(256,512)`, `(2048,2048)` and false on `(1,1)`, `(4,3)`,
`(0,16)`, `(2,2)`.  Proved for the embedding in which the source's
`math.log(·, 2).is_integer()` is read as the exact real logarithm; the
source's IEEE-double evaluation deviates from this ideal at some large
dimensions (for instance `math.log(2**29, 2)` evaluates to
`29.000000000000004`, so the running code wrongly rejects `2^29`), which is
the code bug recorded for this claim. -/
theorem is_mip_mappable_spec :
    (∀ w h : ℕ, is_mip_mappable w h = true ↔
      ((∃ k, w = 2 ^ k) ∧ (∃ k, h = 2 ^ k) ∧ 3 < w ∧ 3 < h ∧ w ≠ 0 ∧ h ≠ 0))
    ∧ (is_mip_mappable 4 4 = true ∧ is_mip_mappable 256 512 = true
        ∧ is_mip_mappable 2048 2048 = true ∧ is_mip_mappable 1 1 = false
        ∧ is_mip_mappable 4 3 = false ∧ is_mip_mappable 0 16 = false
        ∧ is_mip_mappable 2 2 = false) := by
  constructor
  · intro w h
    by_cases hw : w = 0
    · subst hw; simp [is_mip_mappable]
    · by_cases hh : h = 0
      · subst hh; simp [is_mip_mappable]
      · simp [is_mip_mappable, hw, hh, Bool.and_eq_true, log2_is_integer_iff]
        tauto
  · decide

/-- **C7**: `interpret_deltas` with texture type `CHANNELS` is the identity on
every non-empty raw delta sequence whose elements are 3- or 4-element channel
arrays (the `or` in the source short-circuits on `CHANNELS`, so the input is
returned verbatim). -/
theorem interpret_deltas_channels_id (raw : List DeltaEntry)
    (hne : raw ≠ []) (hsh : ∀ e ∈ raw, isVec34 e = true) :
    interpret_deltas raw .CHANNELS = some raw := by
  simp [interpret_deltas]

/-- Witness for C7 at the concrete input `[[1, 2, 3]]`. -/
theorem interpret_deltas_channels_id_witness :
    (([DeltaEntry.vec [1, 2, 3]] : List DeltaEntry) ≠ []
      ∧ ∀ e ∈ ([DeltaEntry.vec [1, 2, 3]] : List DeltaEntry), isVec34 e = true)
    ∧ interpret_deltas [DeltaEntry.vec [1, 2, 3]] .CHANNELS
        = some [DeltaEntry.vec [1, 2, 3]] :=
  ⟨⟨by simp, by decide⟩,
    interpret_deltas_channels_id [DeltaEntry.vec [1, 2, 3]] (by simp) (by decide)⟩

/-- Distributing `List.any` over a pointwise disjunction; bridges the
source's `any(endswith) or any(startswith)` and the specification's "any
affix is a suffix or a prefix". -/
theorem any_or_split (l : List PyStr) (f g : PyStr → Bool) :
    (l.any fun a => f a || g a) = (l.any f || l.any g) := by
  induction l with
  | nil => simp
  | cons a t ih =>
    simp only [List.any_cons, ih]
    cases f a <;> cases g a <;> simp

/-- The empty string is a prefix of every string. -/
theorem nil_isPrefixOf_eq_true (l : PyStr) : ([] : PyStr).isPrefixOf l = true := by
  cases l <;> rfl

/-- **C6**: `get_automatic_texture_type` returns `MAX` when automatic
detection is disabled, and otherwise returns the first category in the
strict priority order COLOR, DATA, CHANNELS, NORMAL for which some
configured affix is a suffix or a prefix of the extension-stripped base
name, `MAX` when none matches — stated as equality with
`spec_infer_texture_type`, the direct rendering of the specification's
description. -/
theorem get_automatic_texture_type_spec :
    ∀ (enabled : Bool) (color data channels normal : List PyStr) (p : PyStr),
      get_automatic_texture_type enabled color data channels normal p
        = spec_infer_texture_type enabled color data channels normal p := by
  intro enabled c d ch n p
  cases enabled with
  | false => rfl
  | true =>
    simp only [get_automatic_texture_type, spec_infer_texture_type, specCategoryMatch,
      any_or_split]
    generalize splitextRoot (basename p) = base
    cases h1 : ((c.any fun a => a.isSuffixOf base) || c.any fun a => a.isPrefixOf base) <;>
    cases h2 : ((d.any fun a => a.isSuffixOf base) || d.any fun a => a.isPrefixOf base) <;>
    cases h3 : ((ch.any fun a => a.isSuffixOf base) || ch.any fun a => a.isPrefixOf base) <;>
    cases h4 : ((n.any fun a => a.isSuffixOf base) || n.any fun a => a.isPrefixOf base) <;>
      simp [List.find?, h1, h2, h3, h4]

/-- **C10**: with automatic detection enabled, an empty string among the
color affixes makes every file infer `COLOR` (the empty string is a prefix
and suffix of every base name); an empty string in a lower-priority list
forces a match no later than that list's category, so the result is never
`MAX`. -/
theorem empty_affix_forces_match :
    ∀ (color data channels normal : List PyStr) (p : PyStr),
      (([] : PyStr) ∈ color →
        get_automatic_texture_type true color data channels normal p = .COLOR)
      ∧ (([] : PyStr) ∈ data →
          get_automatic_texture_type true color data channels normal p = .COLOR
          ∨ get_automatic_texture_type true color data channels normal p = .DATA)
      ∧ (([] : PyStr) ∈ channels →
          get_automatic_texture_type true color data channels normal p = .COLOR
          ∨ get_automatic_texture_type true color data channels normal p = .DATA
          ∨ get_automatic_texture_type true color data channels normal p = .CHANNELS)
      ∧ (([] : PyStr) ∈ normal →
          get_automatic_texture_type true color data channels normal p ≠ .MAX) := by
  intro c d ch n p
  have hpre : ∀ (l : List PyStr), ([] : PyStr) ∈ l →
      (l.any fun a => a.isPrefixOf (splitextRoot (basename p))) = true :=
    fun l hm => List.any_eq_true.mpr ⟨[], hm, nil_isPrefixOf_eq_true _⟩
  refine ⟨?_, ?_, ?_, ?_⟩
  · intro hm
    simp [get_automatic_texture_type, hpre c hm]
  · intro hm
    by_cases hc : ((c.any fun a => a.isSuffixOf (splitextRoot (basename p)))
        || (c.any fun a => a.isPrefixOf (splitextRoot (basename p)))) = true
    · left; simp [get_automatic_texture_type, hc]
    · rw [Bool.not_eq_true] at hc
      right; simp [get_automatic_texture_type, hc, hpre d hm]
  · intro hm
    by_cases hc : ((c.any fun a => a.isSuffixOf (splitextRoot (basename p)))
        || (c.any fun a => a.isPrefixOf (splitextRoot (basename p)))) = true
    · left; simp [get_automatic_texture_type, hc]
    · rw [Bool.not_eq_true] at hc
      by_cases hd : ((d.any fun a => a.isSuffixOf (splitextRoot (basename p)))
          || (d.any fun a => a.isPrefixOf (splitextRoot (basename p)))) = true
      · right; left; simp [get_automatic_texture_type, hc, hd]
      · rw [Bool.not_eq_true] at hd
        right; right; simp [get_automatic_texture_type, hc, hd, hpre ch hm]
  · intro hm
    by_cases hc : ((c.any fun a => a.isSuffixOf (splitextRoot (basename p)))
        || (c.any fun a => a.isPrefixOf (splitextRoot (basename p)))) = true
    · simp [get_automatic_texture_type, hc]
    · rw [Bool.not_eq_true] at hc
      by_cases hd : ((d.any fun a => a.isSuffixOf (splitextRoot (basename p)))
          || (d.any fun a => a.isPrefixOf (splitextRoot (basename p)))) = true
      · simp [get_automatic_texture_type, hc, hd]
      · rw [Bool.not_eq_true] at hd
        by_cases hch : ((ch.any fun a => a.isSuffixOf (splitextRoot (basename p)))
            || (ch.any fun a => a.isPrefixOf (splitextRoot (basename p)))) = true
        · simp [get_automatic_texture_type, hc, hd, hch]
        · rw [Bool.not_eq_true] at hch
          simp [get_automatic_texture_type, hc, hd, hch, hpre n hm]

/-- Witness for C10 at the concrete input: all four affix lists `[""]` and
the file path `x.png`. -/
theorem empty_affix_forces_match_witness :
    (([] : PyStr) ∈ [([] : PyStr)])
    ∧ get_automatic_texture_type true [[]] [[]] [[]] [[]]
        ['x', '.', 'p', 'n', 'g'] = .COLOR
    ∧ (get_automatic_texture_type true [[]] [[]] [[]] [[]]
          ['x', '.', 'p', 'n', 'g'] = .COLOR
        ∨ get_automatic_texture_type true [[]] [[]] [[]] [[]]
            ['x', '.', 'p', 'n', 'g'] = .DATA)
    ∧ (get_automatic_texture_type true [[]] [[]] [[]] [[]]
          ['x', '.', 'p', 'n', 'g'] = .COLOR
        ∨ get_automatic_texture_type true [[]] [[]] [[]] [[]]
            ['x', '.', 'p', 'n', 'g'] = .DATA
        ∨ get_automatic_texture_type true [[]] [[]] [[]] [[]]
            ['x', '.', 'p', 'n', 'g'] = .CHANNELS)
    ∧ get_automatic_texture_type true [[]] [[]] [[]] [[]]
        ['x', '.', 'p', 'n', 'g'] ≠ .MAX :=
  ⟨by decide,
    (empty_affix_forces_match [[]] [[]] [[]] [[]] ['x', '.', 'p', 'n', 'g']).1 (by decide),
    (empty_affix_forces_match [[]] [[]] [[]] [[]] ['x', '.', 'p', 'n', 'g']).2.1 (by decide),
    (empty_affix_forces_match [[]] [[]] [[]] [[]] ['x', '.', 'p', 'n', 'g']).2.2.1 (by decide),
    (empty_affix_forces_match [[]] [[]] [[]] [[]] ['x', '.', 'p', 'n', 'g']).2.2.2 (by decide)⟩

/-- **C9 (code evaluation)**: `clean_affixes_list` does not trim whitespace —
the `affix.strip()` inside its loop discards its result.  On the field text
`"a, b"` the stored list is `["a", " b"]` (second token keeps its leading
space), not the `["a", "b"]` the claim describes; a whitespace-only token
such as the `" "` in `"a, "` is likewise kept rather than discarded. -/
theorem accepted_affixes_not_trimmed :
    accepted_affixes ['a', ',', ' ', 'b'] = [['a'], [' ', 'b']]
    ∧ accepted_affixes ['a', ',', ' ', 'b'] ≠ [['a'], ['b']]
    ∧ accepted_affixes ['a', ',', ' '] = [['a'], [' ']] := by decide

/-- **C8 (counterexample)**: on a Linux/GNOME-family system where the
`gsettings` executable is missing, `subprocess.run` raises
`FileNotFoundError` inside `detectDarkModeGnome`, which has no exception
handling, so `is_system_dark` raises to its caller (`none`) instead of
reporting "not dark" — refuting the claim's "any failure in this path is
treated as not dark; the function never raises". -/
theorem is_system_dark_raises_on_missing_command :
    is_system_dark ⟨.other, none, none, .raises⟩ = none := rfl

/-- **C8 (amended)**: on Linux/GNOME-family systems `is_system_dark` reports
dark mode exactly when the completed settings query's output — decoded,
stripped of whitespace and of surrounding quotes — ends in `-dark`; a query
that completes with other output (e.g. a non-zero exit with empty stdout)
yields "not dark", but when spawning the command itself raises (command not
found) the exception propagates to the caller instead of being treated as
light mode. -/
theorem is_system_dark_gnome_spec :
    ∀ (d : Option PyStr) (w : Option ℤ) (out : PyStr),
      is_system_dark ⟨.other, d, w, .completed out⟩
        = some (darkIndicator.isSuffixOf (pyStripQuote (pyStripWs out)))
      ∧ is_system_dark ⟨.other, d, w, .raises⟩ = none :=
  fun _ _ _ => ⟨rfl, rfl⟩

/-- Looking up a non-string key in a dictionary whose keys are all strings
finds nothing. -/
theorem lookupKey_funcObject_of_strings (d : CacheJson)
    (h : d.all (fun p => !(p.1 == PyKey.funcObject)) = true) :
    lookupKey d PyKey.funcObject = none := by
  induction d with
  | nil => rfl
  | cons p t ih =>
    simp only [List.all_cons, Bool.and_eq_true] at h
    have h1 : (p.1 == PyKey.funcObject) = false := by
      simpa using h.1
    simp [lookupKey, h1, ih h.2]

/-- **C1 (code evaluation)**: the cache round trip fails.  Storing a delta
sequence with `save_cached_results` does put the entry into the file (first
conjunct), but `try_getting_cached_results` returns `None` for *every* file
state whose JSON keys are strings — i.e. every state a cache file can have —
because its `category: str = get_results_category` line binds the function
object itself instead of calling it, and a function object is never among
the string keys of the parsed JSON.  In particular the lookup fails with the
modification time unchanged. -/
theorem try_getting_cached_results_always_none :
    (category_entries (save_cached_results [[1, 2, 3]] "f" 5 (some (some [])) .COLOR)
        "Results" = [("f", ([[1, 2, 3]], 5))])
    ∧ ∀ (allow : Bool) (fs : CacheFile) (mt : ℚ) (fp : String),
        jsonKeysAreStrings fs = true →
        try_getting_cached_results allow fs mt fp = none := by
  constructor
  · decide
  · intro allow fs mt fp h
    cases allow with
    | false => rfl
    | true =>
      match fs with
      | none => rfl
      | some none => rfl
      | some (some d) =>
        simp only [jsonKeysAreStrings] at h
        simp [try_getting_cached_results, lookupKey_funcObject_of_strings d h]

/-- Witness for C1: the stored entry for `"f"` is not returned by the
immediately following lookup with the same modification time. -/
theorem try_getting_cached_results_always_none_witness :
    jsonKeysAreStrings (save_cached_results [[1, 2, 3]] "f" 5 (some (some [])) .COLOR)
      = true
    ∧ try_getting_cached_results true
        (save_cached_results [[1, 2, 3]] "f" 5 (some (some [])) .COLOR) 5 "f" = none :=
  ⟨by decide,
    try_getting_cached_results_always_none.2 true
      (save_cached_results [[1, 2, 3]] "f" 5 (some (some [])) .COLOR) 5 "f" (by decide)⟩

set_option maxRecDepth 10000 in
/-- **C2 (code evaluation)**: storing 101 distinct file-keyed entries into
one category leaves 100 present, but the entry that is missing is the 101st
(newest) one, `"100"`, while the first-inserted `"0"` is still retrievable:
the 101st save reaches `data[category].popitem(False)`, which raises
`TypeError` (`dict.popitem` takes no argument — that signature belongs to
`OrderedDict`), and the exception handler leaves the file unchanged, so the
oldest entry is never evicted; instead the new entry is dropped. -/
theorem eviction_drops_newest_entry :
    (category_entries evictionFinalState "Results").length = 100
    ∧ lookupCat (category_entries evictionFinalState "Results") "0" = some ([[1]], 0)
    ∧ lookupCat (category_entries evictionFinalState "Results") "100" = none := by
  decide

/-- **C3 (counterexample)**: the version constant of `MipExplorer.py` is
`CACHEVERSION = 3`, not the `4` the claim states; a cache file with stored
`Version` 3 — which differs from the claim's constant `4` — is left fully
intact, prior entries included; and a file whose `Version` actually differs
from the constant is deleted outright, with no fresh empty file created
(the resulting state is "no file", not "empty file"). -/
theorem ensure_cache_version_counterexample :
    CACHEVERSION ≠ 4
    ∧ ensure_cache_version (some (some [(PyKey.str "Version", CacheVal.int 3),
        (PyKey.str "Results", CacheVal.catMap [("f", ([[1]], 0))])]))
      = some (some [(PyKey.str "Version", CacheVal.int 3),
        (PyKey.str "Results", CacheVal.catMap [("f", ([[1]], 0))])])
    ∧ ensure_cache_version (some (some [(PyKey.str "Version", CacheVal.int 5)])) = none :=
  ⟨by decide, by decide, by decide⟩

/-- **C3 (amended)**: `ensure_cache_version` compares the stored `Version`
against the current constant `CACHEVERSION = 3`; on a mismatch it deletes
the cache file and does not recreate it (so no prior entries are retrievable
afterwards and no file exists), on a match or a missing `Version` key it
leaves the file unchanged, and it leaves a missing or unparseable file
alone. -/
theorem ensure_cache_version_amended :
    ∀ (d : CacheJson) (v : ℤ),
      (lookupKey d (.str "Version") = some (.int v) → v ≠ CACHEVERSION →
        ensure_cache_version (some (some d)) = none)
      ∧ (lookupKey d (.str "Version") = some (.int CACHEVERSION) →
        ensure_cache_version (some (some d)) = some (some d))
      ∧ (lookupKey d (.str "Version") = none →
        ensure_cache_version (some (some d)) = some (some d))
      ∧ ensure_cache_version none = none
      ∧ ensure_cache_version (some none) = some none := by
  intro d v
  refine ⟨?_, ?_, ?_, rfl, rfl⟩
  · intro hv hne
    have hb : (CACHEVERSION == v) = false :=
      beq_eq_false_iff_ne.mpr (fun hh => hne hh.symm)
    simp [ensure_cache_version, hv, hb]
  · intro hv
    simp [ensure_cache_version, hv]
  · intro hv
    simp [ensure_cache_version, hv]

/-- Witness for the amended C3 at three concrete cache files: `Version` 5 is
deleted without recreation, `Version` 3 is kept, and a file without a
`Version` key is kept. -/
theorem ensure_cache_version_amended_witness :
    (lookupKey [(PyKey.str "Version", CacheVal.int 5)] (.str "Version")
        = some (.int 5) ∧ (5 : ℤ) ≠ CACHEVERSION)
    ∧ ensure_cache_version (some (some [(PyKey.str "Version", CacheVal.int 5)])) = none
    ∧ ensure_cache_version (some (some [(PyKey.str "Version", CacheVal.int 3)]))
        = some (some [(PyKey.str "Version", CacheVal.int 3)])
    ∧ ensure_cache_version (some (some ([] : CacheJson))) = some (some ([] : CacheJson)) :=
  ⟨⟨by decide, by decide⟩,
    (ensure_cache_version_amended [(PyKey.str "Version", CacheVal.int 5)] 5).1
      (by decide) (by decide),
    (ensure_cache_version_amended [(PyKey.str "Version", CacheVal.int 3)] 3).2.1
      (by decide),
    (ensure_cache_version_amended [] 0).2.2.1 (by decide)⟩

end MipExplorer
